import Mathlib

/-!
A shallow embedding of the WebSocket price-feed service
(`src/ui/src/lib/WebSocketPriceService.ts`) and proofs about its
aggregation, confidence scoring, decoding, reconnection, subscription
and shutdown logic.

Modelling conventions: JavaScript IEEE-754 numbers that carry prices,
latencies and thresholds are idealized as rationals; where a NaN can
actually arise (the decoders' `parseFloat` results) numbers are modelled
explicitly as `JsNumber` with a NaN point.  Timestamps are integers
(milliseconds).  JS `Map`s are association lists in insertion order.
Stateful methods are embedded as functions from the service state that
return the new state together with the observable effects (callbacks
invoked, `close` calls issued, timers cleared).
-/

namespace WebSocketPriceService

/-- Embeds JS `string.startsWith(p)` as a character-list test. -/
def strStartsWith (s p : String) : Bool := p.data.isPrefixOf s.data

/-- Embeds the `PriceUpdate` interface (lines 35-39): a normalized tick
enriched with source name, transport latency and a confidence score. -/
structure PriceUpdate where
  symbol : String
  price : ℚ
  timestamp : ℤ
  change24h : ℚ
  volume24h : ℚ
  source : String
  latency : ℚ
  confidence : ℤ
deriving DecidableEq, Repr

/-- Embeds `priceCache : Map<string, PriceUpdate>` with keys of the form
`symbol ++ "_" ++ source`, kept in insertion order. -/
abbrev PriceCache := List (String × PriceUpdate)

/-- Embeds the collection loop of `aggregatePriceData` (lines 235-243):
every cached entry whose key starts with `symbol ++ "_"` and whose age
`now - timestamp` is strictly below the 30-second freshness window. -/
def freshTicks (cache : PriceCache) (symbol : String) (now : ℤ) : List PriceUpdate :=
  (cache.filter (fun e =>
      strStartsWith e.1 (symbol ++ "_") && decide (now - e.2.timestamp < 30000))).map Prod.snd

/-- Embeds the sort comparator `(a, b) => b.confidence - a.confidence`
(line 248): descending confidence. -/
def confGe (a b : PriceUpdate) : Prop := b.confidence ≤ a.confidence

instance : DecidableRel confGe :=
  fun a b => (inferInstance : Decidable (b.confidence ≤ a.confidence))

instance : IsTotal PriceUpdate confGe := ⟨fun a b => le_total b.confidence a.confidence⟩

instance : IsTrans PriceUpdate confGe := ⟨fun _ _ _ h1 h2 => le_trans h2 h1⟩

/-- Embeds `sources.sort((a, b) => b.confidence - a.confidence)`:
ES2019 `Array.prototype.sort` is a stable sort, modelled by a stable
insertion sort under the same comparator. -/
def sortByConfidence (sources : List PriceUpdate) : List PriceUpdate :=
  sources.insertionSort confGe

/-- Composite view used in the theorems: the fresh ticks for a symbol,
sorted by descending confidence, whose head is the primary tick. -/
def sortedTicks (cache : PriceCache) (symbol : String) (now : ℤ) : List PriceUpdate :=
  sortByConfidence (freshTicks cache symbol now)

/-- Embeds `prices.reduce((a, b) => a + b) / prices.length` (line 256)
over `sources.map(s => s.price)`. -/
def avgPrice (sources : List PriceUpdate) : ℚ :=
  (sources.map PriceUpdate.price).sum / (sources.length : ℚ)

/-- Mean price across the fresh ticks of a symbol. -/
def avgFreshPrice (cache : PriceCache) (symbol : String) (now : ℤ) : ℚ :=
  avgPrice (freshTicks cache symbol now)

/-- Embeds `aggregatePriceData` (lines 234-271).  Returns `none` when no
cached tick for the symbol is fresh; otherwise sorts the fresh ticks by
descending confidence, takes the head as primary and, when at least two
ticks survive and the primary deviates from the mean by more than the
0.5 percent threshold, synthesizes an aggregated tick from the primary. -/
def aggregatePriceData (cache : PriceCache) (symbol : String) (now : ℤ) :
    Option PriceUpdate :=
  if (freshTicks cache symbol now).length = 0 then none
  else
    match sortByConfidence (freshTicks cache symbol now) with
    | [] => none
    | primary :: rest =>
      if 1 < (freshTicks cache symbol now).length then
        if 5 / 1000 <
            |primary.price - avgPrice (primary :: rest)| / avgPrice (primary :: rest) then
          some { primary with
                   price := avgPrice (primary :: rest),
                   source := "aggregated",
                   confidence := min 95 (primary.confidence + 10) }
        else some primary
      else some primary

/-- Embeds the method view of `aggregatePriceData`: it only reads
`this.priceCache`, so as a state transformer it returns the result and
the cache it was given, unchanged. -/
def aggregateRead (cache : PriceCache) (symbol : String) (now : ℤ) :
    Option PriceUpdate × PriceCache :=
  (aggregatePriceData cache symbol now, cache)

/-- Embeds `calculateConfidence` (lines 274-290): a per-exchange base
score adjusted by observed latency and clamped to the range 10 to 100. -/
def calculateConfidence (exchange : String) (latency : ℚ) : ℤ :=
  let baseScore : ℤ :=
    if exchange = "binance" then 95
    else if exchange = "coinbase" then 90
    else if exchange = "kraken" then 80
    else 70
  let adjusted : ℤ :=
    if latency < 100 then baseScore + 5
    else if 1000 < latency then baseScore - 10
    else if 500 < latency then baseScore - 5
    else baseScore
  max 10 (min 100 adjusted)

/-- Restates the claim's wording of the confidence rule: trust-rank base
score, a latency adjustment (+5 below 100 ms, -5 in the band above 500 ms
up to 1000 ms, -10 above 1000 ms, 0 otherwise), clamped to [10, 100].
Written from the specification text, to be compared with
`calculateConfidence`. -/
def confidenceSpec (exchange : String) (latency : ℚ) : ℤ :=
  let base : ℤ :=
    if exchange = "binance" then 95
    else if exchange = "coinbase" then 90
    else if exchange = "kraken" then 80
    else 70
  let adj : ℤ :=
    if latency < 100 then 5
    else if 500 < latency ∧ latency ≤ 1000 then -5
    else if 1000 < latency then -10
    else 0
  min 100 (max 10 (base + adj))

/-- Models a raw JSON field that the decoders run `parseFloat` on:
the field may be absent, present but not numeric, or numeric. -/
inductive RawField where
  | absent
  | nonNumeric
  | num (q : ℚ)
deriving DecidableEq, Repr

/-- Models a JavaScript number: NaN or a rational value. -/
inductive JsNumber where
  | nan
  | val (q : ℚ)
deriving DecidableEq, Repr

/-- Embeds JS `parseFloat` applied to a possibly-missing field: a missing
or non-numeric field yields NaN, a numeric one its value. -/
def parseFloat : RawField → JsNumber
  | RawField.num q => JsNumber.val q
  | _ => JsNumber.nan

/-- Embeds JS `x || 0`: NaN and 0 are falsy, so both become 0. -/
def orZero : JsNumber → ℚ
  | JsNumber.nan => 0
  | JsNumber.val q => if q = 0 then 0 else q

/-- Embeds the tick a decoder returns; its numeric fields are `JsNumber`
because the decoders apply no validation after `parseFloat`. -/
structure DecodedTick where
  symbol : String
  price : JsNumber
  timestamp : ℤ
  change24h : JsNumber
  volume24h : JsNumber
  source : String
  latency : ℚ
  confidence : ℤ
deriving DecidableEq, Repr

/-- Embeds the Binance `symbolMapping` (lines 56-73). -/
def binanceSymbolMapping : List (String × String) :=
  [("BTC", "BTCUSDT"), ("ETH", "ETHUSDT"), ("SOL", "SOLUSDT"),
   ("ADA", "ADAUSDT"), ("AVAX", "AVAXUSDT"), ("MATIC", "MATICUSDT"),
   ("DOT", "DOTUSDT"), ("LINK", "LINKUSDT"), ("UNI", "UNIUSDT"),
   ("ATOM", "ATOMUSDT"), ("NEAR", "NEARUSDT"), ("FTM", "FTMUSDT"),
   ("ALGO", "ALGOUSDT"), ("XRP", "XRPUSDT"), ("LTC", "LTCUSDT"),
   ("BCH", "BCHUSDT")]

/-- Embeds the Coinbase `symbolMapping` (lines 83-96). -/
def coinbaseSymbolMapping : List (String × String) :=
  [("BTC", "BTC-USD"), ("ETH", "ETH-USD"), ("SOL", "SOL-USD"),
   ("ADA", "ADA-USD"), ("AVAX", "AVAX-USD"), ("MATIC", "MATIC-USD"),
   ("DOT", "DOT-USD"), ("LINK", "LINK-USD"), ("UNI", "UNI-USD"),
   ("ATOM", "ATOM-USD"), ("ALGO", "ALGO-USD"), ("LTC", "LTC-USD")]

/-- Embeds the Kraken `symbolMapping` (lines 106-118). -/
def krakenSymbolMapping : List (String × String) :=
  [("BTC", "XBT/USD"), ("ETH", "ETH/USD"), ("SOL", "SOL/USD"),
   ("ADA", "ADA/USD"), ("AVAX", "AVAX/USD"), ("DOT", "DOT/USD"),
   ("LINK", "LINK/USD"), ("UNI", "UNI/USD"), ("ATOM", "ATOM/USD"),
   ("ALGO", "ALGO/USD"), ("LTC", "LTC/USD")]

/-- Embeds `findOriginalSymbol` (lines 435-445): first mapping entry whose
exchange-native name equals the given one, returning the canonical name. -/
def findOriginalSymbol (mapping : List (String × String)) (exchangeSymbol : String) :
    Option String :=
  (mapping.find? (fun e => decide (e.2 = exchangeSymbol))).map Prod.fst

/-- Embeds the fields of a Binance ticker frame that
`parseBinanceMessage` reads: `e`, `s`, `c`, `E`, `P`, `v`. -/
structure BinanceFrame where
  e : Option String
  s : Option String
  c : RawField
  E : ℤ
  P : RawField
  v : RawField
deriving DecidableEq, Repr

/-- Embeds `parseBinanceMessage` (lines 367-387).  Note that the price is
`parseFloat(data.c)` with no validation: a missing or non-numeric `c`
produces a tick whose price is NaN, not a `null` return. -/
def parseBinanceMessage (data : BinanceFrame) : Option DecodedTick :=
  if data.e = some "24hrTicker" then
    match data.s with
    | some binanceSymbol =>
      match findOriginalSymbol binanceSymbolMapping binanceSymbol with
      | some originalSymbol =>
          some { symbol := originalSymbol,
                 price := parseFloat data.c,
                 timestamp := data.E,
                 change24h := parseFloat data.P,
                 volume24h := parseFloat data.v,
                 source := "binance",
                 latency := 0,
                 confidence := 95 }
      | none => none
    | none => none
  else none

/-- Embeds the fields of a Coinbase ticker frame that
`parseCoinbaseMessage` reads; `time` stands for
`new Date(data.time).getTime()`. -/
structure CoinbaseFrame where
  type : Option String
  product_id : Option String
  price : RawField
  time : ℤ
  open_24h : RawField
  volume_24h : RawField
deriving DecidableEq, Repr

/-- Embeds `parseCoinbaseMessage` (lines 389-409): the change is computed
from `open_24h` only when `parseFloat(data.open_24h)` is truthy (neither
NaN nor 0); the price itself is forwarded unvalidated. -/
def parseCoinbaseMessage (data : CoinbaseFrame) : Option DecodedTick :=
  if data.type = some "ticker" then
    match data.product_id with
    | some coinbaseSymbol =>
      match findOriginalSymbol coinbaseSymbolMapping coinbaseSymbol with
      | some originalSymbol =>
          some { symbol := originalSymbol,
                 price := parseFloat data.price,
                 timestamp := data.time,
                 change24h :=
                   match parseFloat data.open_24h with
                   | JsNumber.val o =>
                       if o = 0 then JsNumber.val 0
                       else
                         match parseFloat data.price with
                         | JsNumber.val p => JsNumber.val ((p - o) / o * 100)
                         | JsNumber.nan => JsNumber.nan
                   | JsNumber.nan => JsNumber.val 0,
                 volume24h := parseFloat data.volume_24h,
                 source := "coinbase",
                 latency := 0,
                 confidence := 90 }
      | none => none
    | none => none
  else none

/-- Embeds the `data[1]` ticker payload of a Kraken frame: `c[0]` is the
last-trade price and `v[1]` the 24-hour volume. -/
structure KrakenTickerPayload where
  c0 : RawField
  v1 : RawField
deriving DecidableEq, Repr

/-- Embeds a Kraken frame as `parseKrakenMessage` reads it:
`isTickerArray` stands for
`Array.isArray(data) && data.length > 3 && data[2] === "ticker"`,
`pair` for `data[3]` and `ticker` for `data[1]`. -/
structure KrakenFrame where
  isTickerArray : Bool
  pair : Option String
  ticker : Option KrakenTickerPayload
deriving DecidableEq, Repr

/-- Embeds `parseKrakenMessage` (lines 411-432), with `now` standing for
`Date.now()`.  A missing or non-numeric price becomes
`parseFloat(...) || 0`, that is the tick is forwarded with price 0. -/
def parseKrakenMessage (data : KrakenFrame) (now : ℤ) : Option DecodedTick :=
  if data.isTickerArray then
    match data.pair with
    | some krakenSymbol =>
      match findOriginalSymbol krakenSymbolMapping krakenSymbol, data.ticker with
      | some originalSymbol, some ticker =>
          some { symbol := originalSymbol,
                 price := JsNumber.val (orZero (parseFloat ticker.c0)),
                 timestamp := now,
                 change24h := JsNumber.val 0,
                 volume24h := JsNumber.val (orZero (parseFloat ticker.v1)),
                 source := "kraken",
                 latency := 0,
                 confidence := 80 }
      | _, _ => none
    | none => none
  else none

/-- Embeds the `ConnectionState` enum (lines 6-12). -/
inductive ConnectionState where
  | disconnected
  | connecting
  | connected
  | reconnecting
  | error
deriving DecidableEq, Repr

/-- Embeds the `ConnectionStatus` interface (lines 25-32). -/
structure ConnectionStatus where
  exchange : String
  state : ConnectionState
  lastUpdate : ℤ
  latency : ℚ
  reconnectAttempts : ℕ
  error : Option String
deriving DecidableEq, Repr

/-- Embeds the per-adapter connection bookkeeping relevant to
reconnection: the adapter's current `ConnectionStatus` entry, the
attempt count captured by a pending reconnect timer closure, and the
log of delays (ms) passed to `setTimeout` so far. -/
structure AdapterState where
  status : Option ConnectionStatus
  pendingTimer : Option ℕ
  delays : List ℕ
deriving DecidableEq, Repr

/-- Initial adapter state: no status entry, no timer, nothing scheduled. -/
def adapterInit : AdapterState := { status := none, pendingTimer := none, delays := [] }

/-- Embeds `updateConnectionStatus` (lines 312-333) for one adapter: the
status record is rebuilt from the arguments.  The source declares the
defaults `latency = 0`, `error = undefined`, `reconnectAttempts = 0`;
call sites that rely on a default pass that default explicitly here. -/
def updateConnectionStatus (st : AdapterState) (exchange : String)
    (state : ConnectionState) (now : ℤ) (latency : ℚ) (err : Option String)
    (reconnectAttempts : ℕ) : AdapterState :=
  { st with
      status := some { exchange := exchange, state := state, lastUpdate := now,
                       latency := latency, reconnectAttempts := reconnectAttempts,
                       error := err } }

/-- Embeds `scheduleReconnection` (lines 293-309): reads the attempt
count from the current status entry (0 when absent), adds one, computes
`min(1000 * 2 ^ (attempts - 1), 30000)` and starts a timer whose closure
captures `attempts`. -/
def scheduleReconnection (st : AdapterState) : AdapterState :=
  let attempts : ℕ :=
    match st.status with
    | some s => s.reconnectAttempts + 1
    | none => 1
  let delay : ℕ := min (1000 * 2 ^ (attempts - 1)) 30000
  { st with pendingTimer := some attempts, delays := st.delays ++ [delay] }

/-- Events of one adapter's connection lifecycle, as driven by
`connectToExchange` (lines 141-213): a connect attempt, the `onopen`,
`onclose` (with close code) and `onerror` handlers, and the firing of a
scheduled reconnect timer. -/
inductive ConnEvent where
  | connectAttempt
  | openOk
  | closeEvt (code : ℕ)
  | errorEvt
  | timerFire
deriving DecidableEq, Repr

/-- Embeds the handler wiring of `connectToExchange`:
a connect attempt posts Connecting (line 145), `onopen` posts Connected
(line 153), `onclose` posts Disconnected and schedules reconnection
unless the close code is 1000 (lines 197-205), `onerror` posts Error
(lines 191-195), and a firing timer posts Reconnecting with the captured
attempt count and immediately re-enters `connectToExchange`
(lines 303-306). -/
def connStep (exchange : String) (now : ℤ) (st : AdapterState) :
    ConnEvent → AdapterState
  | ConnEvent.connectAttempt =>
      updateConnectionStatus st exchange ConnectionState.connecting now 0 none 0
  | ConnEvent.openOk =>
      updateConnectionStatus st exchange ConnectionState.connected now 0 none 0
  | ConnEvent.closeEvt code =>
      let st1 := updateConnectionStatus st exchange ConnectionState.disconnected now 0 none 0
      if code ≠ 1000 then scheduleReconnection st1 else st1
  | ConnEvent.errorEvt =>
      updateConnectionStatus st exchange ConnectionState.error now 0
        (some "WebSocket error") 0
  | ConnEvent.timerFire =>
      match st.pendingTimer with
      | some attempts =>
          let st1 := updateConnectionStatus { st with pendingTimer := none } exchange
            ConnectionState.reconnecting now 0 (some "") attempts
          updateConnectionStatus st1 exchange ConnectionState.connecting now 0 none 0
      | none => st

/-- Runs a sequence of connection events from a given adapter state. -/
def runConn (exchange : String) (now : ℤ) (st : AdapterState)
    (events : List ConnEvent) : AdapterState :=
  events.foldl (connStep exchange now) st

/-- Identifier of a registered callback; JS compares callbacks by object
identity (`indexOf` uses strict equality), modelled by a numeric id. -/
abbrev CallbackId := ℕ

/-- Embeds the whole mutable state of the service object
(lines 42-47): connections (exchange name to WebSocket `readyState`),
the status table, per-symbol price-callback arrays, the status-callback
array, pending reconnect timers (exchange name to timer handle), and the
price cache. -/
structure ServiceState where
  connections : List (String × ℕ)
  connectionStatus : List (String × ConnectionStatus)
  priceCallbacks : List (String × List CallbackId)
  statusCallbacks : List CallbackId
  reconnectTimers : List (String × ℕ)
  priceCache : PriceCache
deriving DecidableEq, Repr

/-- The numeric value of `WebSocket.OPEN` (readyState 1). -/
def WebSocketOPEN : ℕ := 1

/-- Embeds JS `Map.prototype.set`: replace the value at an existing key,
otherwise append a new entry. -/
def mapSet {α : Type} (m : List (String × α)) (k : String) (v : α) :
    List (String × α) :=
  if m.any (fun e => decide (e.1 = k)) then
    m.map (fun e => if e.1 = k then (k, v) else e)
  else m ++ [(k, v)]

/-- Embeds JS `Map.prototype.get`. -/
def mapGet {α : Type} (m : List (String × α)) (k : String) : Option α :=
  (m.find? (fun e => decide (e.1 = k))).map Prod.snd

/-- Embeds `disconnect` (lines 496-516).  Returns the new state, the
exchanges on which `ws.close(1000, ...)` was invoked, and the timer
handles passed to `clearTimeout`.  The source guards each close with
`ws.readyState === WebSocket.OPEN`, so only OPEN connections receive a
close call; afterwards every table is cleared. -/
def disconnect (st : ServiceState) : ServiceState × List String × List ℕ :=
  (⟨[], [], [], [], [], []⟩,
   (st.connections.filter (fun c => decide (c.2 = WebSocketOPEN))).map Prod.fst,
   st.reconnectTimers.map Prod.snd)

/-- Embeds `handlePriceUpdate` (lines 216-231): cache the tick under
`symbol ++ "_" ++ source`, look up the symbol's callback array, recompute
the best price, and when it is non-null invoke every callback in the
array (the identifiers of the invoked callbacks are returned; the
fine-grained iteration semantics during concurrent unsubscription is
modelled separately by `forEachDeliver`). -/
def handlePriceUpdate (st : ServiceState) (update : PriceUpdate) (now : ℤ) :
    ServiceState × List CallbackId :=
  let cache := mapSet st.priceCache (update.symbol ++ "_" ++ update.source) update
  let callbacks := (mapGet st.priceCallbacks update.symbol).getD []
  ({ st with priceCache := cache },
   if (aggregatePriceData cache update.symbol now).isSome then callbacks else [])

/-- Embeds the notification part of `updateConnectionStatus`
(lines 312-333) at the service level: rebuild the status entry, store it,
and invoke every registered status callback with the snapshot.  Returns
the new state and the ids of the status callbacks invoked. -/
def updateConnectionStatusSvc (st : ServiceState) (exchange : String)
    (state : ConnectionState) (now : ℤ) (latency : ℚ) (err : Option String)
    (reconnectAttempts : ℕ) : ServiceState × List CallbackId :=
  let status : ConnectionStatus :=
    { exchange := exchange, state := state, lastUpdate := now, latency := latency,
      reconnectAttempts := reconnectAttempts, error := err }
  let st1 := { st with connectionStatus := mapSet st.connectionStatus exchange status }
  (st1, st1.statusCallbacks)

/-- Embeds the unsubscribe closure returned by `onPriceUpdate`
(lines 344-350): `indexOf` finds the first occurrence of the callback and
`splice(index, 1)` removes exactly that one; when the callback is absent
(`indexOf` returns -1) nothing happens. -/
def unsubscribeOnce (cb : CallbackId) : List CallbackId → List CallbackId
  | [] => []
  | c :: cs => if c = cb then cs else c :: unsubscribeOnce cb cs

/-- Embeds the registration part of `onPriceUpdate` (lines 336-341):
push the callback onto the symbol's array. -/
def registerCallback (cb : CallbackId) (callbacks : List CallbackId) :
    List CallbackId :=
  callbacks ++ [cb]

/-- Models one subscriber for the delivery analysis: its identity and the
identities its invocation unsubscribes (by calling the closures of
`onPriceUpdate`) from the same symbol's array. -/
structure DCb where
  id : ℕ
  removes : List ℕ
deriving DecidableEq, Repr

/-- Effect of one unsubscribe closure on the live callback array: remove
the first entry carrying the given identity, as `indexOf` + `splice` do. -/
def removeFirstId (r : ℕ) : List DCb → List DCb
  | [] => []
  | c :: cs => if c.id = r then cs else c :: removeFirstId r cs

/-- All unsubscriptions performed by one invocation, applied in order to
the live array. -/
def applyRemoves (rs : List ℕ) (l : List DCb) : List DCb :=
  rs.foldl (fun acc r => removeFirstId r acc) l

/-- Embeds `callbacks.forEach(callback => callback(bestPrice))`
(line 229) over the live array: index `k` advances by one per step and is
re-checked against the current length of the array, which the invoked
callback may have spliced through its unsubscribe closures.  Since no
step lengthens the array, at most `l.length` steps run, which the `fuel`
argument makes structural. -/
def forEachDeliver (fuel : ℕ) (l : List DCb) (k : ℕ) (acc : List ℕ) : List ℕ :=
  match fuel with
  | 0 => acc
  | fuel + 1 =>
    if h : k < l.length then
      forEachDeliver fuel (applyRemoves (l.get ⟨k, h⟩).removes l) (k + 1)
        (acc ++ [(l.get ⟨k, h⟩).id])
    else acc

/-- One delivery pass over a callback array, starting at index 0. -/
def deliverAll (l : List DCb) : List ℕ := forEachDeliver l.length l 0 []

/-! Helper lemmas about the aggregator. -/

/-- Sorting by confidence permutes the input list. -/
theorem sortByConfidence_perm (l : List PriceUpdate) : (sortByConfidence l).Perm l :=
  List.perm_insertionSort confGe l

/-- The head of the confidence-sorted list carries the maximal confidence
among the input ticks. -/
theorem head_sortByConfidence_max (l : List PriceUpdate) (p : PriceUpdate)
    (rest : List PriceUpdate) (hsort : sortByConfidence l = p :: rest) :
    ∀ t ∈ l, t.confidence ≤ p.confidence := by
  intro t ht
  have ht2 : t ∈ sortByConfidence l := (sortByConfidence_perm l).mem_iff.mpr ht
  rw [hsort] at ht2
  rcases List.mem_cons.mp ht2 with h | h
  · rw [h]
  · have hs : List.Sorted confGe (sortByConfidence l) :=
      List.sorted_insertionSort confGe l
    rw [hsort] at hs
    exact (List.sorted_cons.mp hs).1 t h

/-- The mean price is invariant under the confidence sort. -/
theorem avgPrice_sortByConfidence (l : List PriceUpdate) :
    avgPrice (sortByConfidence l) = avgPrice l := by
  unfold avgPrice
  rw [(sortByConfidence_perm l).length_eq,
    List.Perm.sum_eq ((sortByConfidence_perm l).map PriceUpdate.price)]

/-- Computation lemma: with at least two fresh ticks, `aggregatePriceData`
reduces to the deviation test between the sorted head and the mean of the
fresh prices. -/
theorem aggregate_eq_of_sorted (cache : PriceCache) (symbol : String) (now : ℤ)
    (p : PriceUpdate) (rest : List PriceUpdate)
    (hsort : sortedTicks cache symbol now = p :: rest)
    (h2 : 2 ≤ (freshTicks cache symbol now).length) :
    aggregatePriceData cache symbol now =
      if 5 / 1000 <
          |p.price - avgFreshPrice cache symbol now| / avgFreshPrice cache symbol now then
        some { p with
                 price := avgFreshPrice cache symbol now,
                 source := "aggregated",
                 confidence := min 95 (p.confidence + 10) }
      else some p := by
  have hs2 : sortByConfidence (freshTicks cache symbol now) = p :: rest := hsort
  have havg : avgPrice (p :: rest) = avgFreshPrice cache symbol now := by
    rw [← hs2]
    exact avgPrice_sortByConfidence (freshTicks cache symbol now)
  unfold aggregatePriceData
  rw [if_neg (by omega : ¬ (freshTicks cache symbol now).length = 0), hs2]
  dsimp only
  rw [if_pos (by omega : 1 < (freshTicks cache symbol now).length), havg]

/-- C1: for a symbol with at least two fresh cached ticks whose primary
(highest-confidence) tick deviates from the arithmetic mean of the fresh
prices by more than 0.5 percent of that mean, `aggregatePriceData`
returns the mean price with source "aggregated" and confidence
`min 95 (primary.confidence + 10)`; the head of the sorted fresh ticks is
indeed of maximal confidence. -/
theorem aggregate_divergence_uses_mean (cache : PriceCache) (symbol : String)
    (now : ℤ) (p : PriceUpdate) (rest : List PriceUpdate)
    (hsort : sortedTicks cache symbol now = p :: rest)
    (h2 : 2 ≤ (freshTicks cache symbol now).length)
    (hpos : 0 < avgFreshPrice cache symbol now)
    (hdev : 5 / 1000 * avgFreshPrice cache symbol now <
        |p.price - avgFreshPrice cache symbol now|) :
    aggregatePriceData cache symbol now =
      some { p with
               price := avgFreshPrice cache symbol now,
               source := "aggregated",
               confidence := min 95 (p.confidence + 10) }
    ∧ ∀ t ∈ freshTicks cache symbol now, t.confidence ≤ p.confidence := by
  constructor
  · rw [aggregate_eq_of_sorted cache symbol now p rest hsort h2,
      if_pos ((lt_div_iff₀ hpos).mpr hdev)]
  · exact head_sortByConfidence_max (freshTicks cache symbol now) p rest hsort

/-- C2: for a symbol with at least two fresh cached ticks whose primary
(highest-confidence) tick deviates from the mean by at most the 0.5
percent threshold, `aggregatePriceData` returns the primary tick
unchanged: its own price, source and confidence. -/
theorem aggregate_agreement_keeps_primary (cache : PriceCache) (symbol : String)
    (now : ℤ) (p : PriceUpdate) (rest : List PriceUpdate)
    (hsort : sortedTicks cache symbol now = p :: rest)
    (h2 : 2 ≤ (freshTicks cache symbol now).length)
    (hpos : 0 < avgFreshPrice cache symbol now)
    (hdev : |p.price - avgFreshPrice cache symbol now| ≤
        5 / 1000 * avgFreshPrice cache symbol now) :
    aggregatePriceData cache symbol now = some p
    ∧ ∀ t ∈ freshTicks cache symbol now, t.confidence ≤ p.confidence := by
  constructor
  · rw [aggregate_eq_of_sorted cache symbol now p rest hsort h2,
      if_neg (not_lt.mpr ((div_le_iff₀ hpos).mpr hdev))]
  · exact head_sortByConfidence_max (freshTicks cache symbol now) p rest hsort

/-- C10: whenever the divergence branch synthesizes an "aggregated" tick,
every field other than price, source and confidence — symbol, timestamp,
24-hour change, 24-hour volume and latency — is copied unchanged from the
primary tick. -/
theorem aggregated_tick_copies_primary_fields (cache : PriceCache) (symbol : String)
    (now : ℤ) (p : PriceUpdate) (rest : List PriceUpdate)
    (hsort : sortedTicks cache symbol now = p :: rest)
    (h2 : 2 ≤ (freshTicks cache symbol now).length)
    (hpos : 0 < avgFreshPrice cache symbol now)
    (hdev : 5 / 1000 * avgFreshPrice cache symbol now <
        |p.price - avgFreshPrice cache symbol now|) :
    ∃ r, aggregatePriceData cache symbol now = some r
      ∧ r.source = "aggregated"
      ∧ r.symbol = p.symbol ∧ r.timestamp = p.timestamp
      ∧ r.change24h = p.change24h ∧ r.volume24h = p.volume24h
      ∧ r.latency = p.latency
      ∧ r.price = avgFreshPrice cache symbol now
      ∧ r.confidence = min 95 (p.confidence + 10) := by
  have h := aggregate_eq_of_sorted cache symbol now p rest hsort h2
  rw [if_pos ((lt_div_iff₀ hpos).mpr hdev)] at h
  exact ⟨_, h, rfl, rfl, rfl, rfl, rfl, rfl, rfl, rfl⟩

/-- C5: everything the read returns is fresh (age strictly below 30 s, so
ticks aged 30 s or more are excluded); when every matching cache entry is
stale the read returns `none`; and the read leaves the cache untouched,
so reading twice at the same instant gives the same result. -/
theorem aggregate_freshness_and_idempotence (cache : PriceCache) (symbol : String)
    (now : ℤ) :
    (∀ t ∈ freshTicks cache symbol now, now - t.timestamp < 30000)
    ∧ ((∀ e ∈ cache, strStartsWith e.1 (symbol ++ "_") = true →
          30000 ≤ now - e.2.timestamp) →
        aggregatePriceData cache symbol now = none)
    ∧ (aggregateRead cache symbol now).2 = cache
    ∧ (aggregateRead (aggregateRead cache symbol now).2 symbol now).1
        = (aggregateRead cache symbol now).1 := by
  refine ⟨?_, ?_, rfl, rfl⟩
  · intro t ht
    unfold freshTicks at ht
    obtain ⟨e, he, rfl⟩ := List.mem_map.mp ht
    have hb := (List.mem_filter.mp he).2
    rw [Bool.and_eq_true] at hb
    exact of_decide_eq_true hb.2
  · intro hstale
    have hnil : freshTicks cache symbol now = [] := by
      unfold freshTicks
      rw [List.filter_eq_nil_iff.mpr ?_, List.map_nil]
      intro e he hb
      rw [Bool.and_eq_true] at hb
      exact absurd (of_decide_eq_true hb.2) (not_lt.mpr (hstale e he hb.1))
    unfold aggregatePriceData
    rw [hnil]
    simp

/-! Concrete ticks and caches used by the witnesses. -/

/-- Witness tick: Binance at 50000 with confidence 95. -/
def tickA : PriceUpdate :=
  { symbol := "BTC", price := 50000, timestamp := 0, change24h := 0,
    volume24h := 0, source := "binance", latency := 0, confidence := 95 }

/-- Witness tick: Coinbase at 60000 with confidence 90 (20 percent
divergence from `tickA`). -/
def tickB : PriceUpdate :=
  { symbol := "BTC", price := 60000, timestamp := 0, change24h := 0,
    volume24h := 0, source := "coinbase", latency := 0, confidence := 90 }

/-- Witness tick: Coinbase at 50100 with confidence 90 (0.2 percent
divergence from `tickA`). -/
def tickC : PriceUpdate :=
  { symbol := "BTC", price := 50100, timestamp := 0, change24h := 0,
    volume24h := 0, source := "coinbase", latency := 0, confidence := 90 }

/-- A divergent two-source cache: 50000 versus 60000. -/
def cache0 : PriceCache := [("BTC_binance", tickA), ("BTC_coinbase", tickB)]

/-- An agreeing two-source cache: 50000 versus 50100. -/
def cache1 : PriceCache := [("BTC_binance", tickA), ("BTC_coinbase", tickC)]

/-- Mean price of `cache0` at time 1000. -/
theorem avgFreshPrice_cache0 : avgFreshPrice cache0 "BTC" 1000 = 55000 := by
  have h : freshTicks cache0 "BTC" 1000 = [tickA, tickB] := by decide
  rw [avgFreshPrice, h]
  simp [avgPrice, tickA, tickB]
  norm_num

/-- Mean price of `cache1` at time 1000. -/
theorem avgFreshPrice_cache1 : avgFreshPrice cache1 "BTC" 1000 = 50050 := by
  have h : freshTicks cache1 "BTC" 1000 = [tickA, tickC] := by decide
  rw [avgFreshPrice, h]
  simp [avgPrice, tickA, tickC]
  norm_num

/-- Witness for C1 at the spec's own scenario (50000 versus 60000, mean
55000, source "aggregated", confidence capped at 95). -/
theorem aggregate_divergence_uses_mean_witness :
    aggregatePriceData cache0 "BTC" 1000 =
      some { symbol := "BTC", price := 55000, timestamp := 0, change24h := 0,
             volume24h := 0, source := "aggregated", latency := 0,
             confidence := 95 } := by
  have h := aggregate_divergence_uses_mean cache0 "BTC" 1000 tickA [tickB]
    (by decide) (by decide)
    (by rw [avgFreshPrice_cache0]; norm_num)
    (by rw [avgFreshPrice_cache0]; show 5 / 1000 * 55000 < |tickA.price - 55000|
        rw [show tickA.price = 50000 from rfl]; norm_num)
  rw [h.1, avgFreshPrice_cache0]
  decide

/-- Witness for C2 at the spec's own scenario (50000 versus 50100,
primary wins with its own price). -/
theorem aggregate_agreement_keeps_primary_witness :
    aggregatePriceData cache1 "BTC" 1000 = some tickA := by
  have h := aggregate_agreement_keeps_primary cache1 "BTC" 1000 tickA [tickC]
    (by decide) (by decide)
    (by rw [avgFreshPrice_cache1]; norm_num)
    (by rw [avgFreshPrice_cache1]; show |tickA.price - 50050| ≤ 5 / 1000 * 50050
        rw [show tickA.price = 50000 from rfl]; norm_num)
  exact h.1

/-- Witness for C10 on the divergent cache: the synthesized tick keeps
the primary's symbol, timestamp, 24-hour statistics and latency. -/
theorem aggregated_tick_copies_primary_fields_witness :
    ∃ r, aggregatePriceData cache0 "BTC" 1000 = some r
      ∧ r.source = "aggregated"
      ∧ r.symbol = tickA.symbol ∧ r.timestamp = tickA.timestamp
      ∧ r.change24h = tickA.change24h ∧ r.volume24h = tickA.volume24h
      ∧ r.latency = tickA.latency
      ∧ r.price = avgFreshPrice cache0 "BTC" 1000
      ∧ r.confidence = min 95 (tickA.confidence + 10) :=
  aggregated_tick_copies_primary_fields cache0 "BTC" 1000 tickA [tickB]
    (by decide) (by decide)
    (by rw [avgFreshPrice_cache0]; norm_num)
    (by rw [avgFreshPrice_cache0]; show 5 / 1000 * 55000 < |tickA.price - 55000|
        rw [show tickA.price = 50000 from rfl]; norm_num)

/-- A stale tick for the C5 witness: cached at time 0 and read at 30000,
exactly the freshness boundary, which must be excluded. -/
def staleTick : PriceUpdate :=
  { symbol := "BTC", price := 100, timestamp := 0, change24h := 0,
    volume24h := 0, source := "binance", latency := 0, confidence := 95 }

/-- Witness for C5: a cache whose only matching entry is exactly 30
seconds old yields `none`. -/
theorem aggregate_freshness_and_idempotence_witness :
    aggregatePriceData [("BTC_binance", staleTick)] "BTC" 30000 = none :=
  (aggregate_freshness_and_idempotence [("BTC_binance", staleTick)] "BTC" 30000).2.1
    (by decide)

/-- C9: `calculateConfidence` equals the claim's scoring rule — trust-rank
base (binance 95, coinbase 90, kraken 80, default 70), +5 below 100 ms,
-5 in the band above 500 ms up to and including 1000 ms, -10 above
1000 ms, clamped to [10, 100] — for every exchange name and latency; as a
pure function of its two arguments it is deterministic by construction. -/
theorem calculateConfidence_matches_spec (exchange : String) (latency : ℚ) :
    calculateConfidence exchange latency = confidenceSpec exchange latency := by
  unfold calculateConfidence confidenceSpec
  dsimp only
  rcases lt_or_le latency 100 with h1 | h1
  · rw [if_pos h1, if_pos h1]
    split_ifs <;> decide
  · rw [if_neg (not_lt.mpr h1), if_neg (not_lt.mpr h1)]
    rcases lt_or_le 1000 latency with h2 | h2
    · rw [if_pos h2,
        if_neg (by rintro ⟨-, hb⟩; linarith : ¬(500 < latency ∧ latency ≤ 1000)),
        if_pos h2]
      split_ifs <;> decide
    · rw [if_neg (not_lt.mpr h2)]
      rcases lt_or_le 500 latency with h3 | h3
      · rw [if_pos h3, if_pos (And.intro h3 h2)]
        split_ifs <;> decide
      · rw [if_neg (not_lt.mpr h3),
          if_neg (by rintro ⟨ha, -⟩; linarith : ¬(500 < latency ∧ latency ≤ 1000)),
          if_neg (not_lt.mpr h2)]
        split_ifs <;> decide

/-- C4 (code bug): under repeated consecutive failures the scheduled
reconnection delay never grows.  Every failure path stores a status with
the defaulted `reconnectAttempts = 0` (the `onclose` handler posts
Disconnected, the catch posts Error, and a new connect attempt posts
Connecting, all without passing the counter) before `scheduleReconnection`
reads it, so the counter read is always 0, the attempt computed is always
1, and the delay is always `min(1000 * 2^0, 30000) = 1000` — contrary to
the exponential 1s, 2s, 4s, 8s, max 30s sequence promised by the claim
and by the source's own comment on line 298. -/
theorem reconnect_delay_not_exponential :
    (runConn "binance" 0 adapterInit
        [ConnEvent.connectAttempt, ConnEvent.closeEvt 1006,
         ConnEvent.timerFire, ConnEvent.closeEvt 1006]).delays = [1000, 1000]
    ∧ [1000, 1000] ≠
        [min (1000 * 2 ^ (1 - 1)) 30000, min (1000 * 2 ^ (2 - 1)) 30000] := by
  decide

/-- A Binance ticker frame addressed to BTCUSDT whose price field `c` is
missing; `P` and `v` are present and numeric. -/
def binanceMissingPriceFrame : BinanceFrame :=
  { e := some "24hrTicker", s := some "BTCUSDT", c := RawField.absent,
    E := 0, P := RawField.num 1, v := RawField.num 2 }

/-- The same Binance frame with a strictly negative price string. -/
def binanceNegativePriceFrame : BinanceFrame :=
  { e := some "24hrTicker", s := some "BTCUSDT", c := RawField.num (-5),
    E := 0, P := RawField.num 1, v := RawField.num 2 }

/-- A Kraken ticker frame for XBT/USD whose price array entry `c[0]` is
missing. -/
def krakenMissingPriceFrame : KrakenFrame :=
  { isTickerArray := true, pair := some "XBT/USD",
    ticker := some { c0 := RawField.absent, v1 := RawField.num 3 } }

/-- A Coinbase ticker frame for BTC-USD whose price field does not parse
as a number. -/
def coinbaseNonNumericPriceFrame : CoinbaseFrame :=
  { type := some "ticker", product_id := some "BTC-USD",
    price := RawField.nonNumeric, time := 0, open_24h := RawField.absent,
    volume_24h := RawField.num 1 }

/-- C3 (code bug): the decoders do not return null on missing,
non-numeric or non-positive prices.  Binance forwards a tick whose price
is `parseFloat(data.c)` = NaN when `c` is missing, and forwards strictly
negative prices untouched; Kraken substitutes 0 for a missing price
(`parseFloat(ticker.c?.[0]) || 0`) and forwards the tick; Coinbase
forwards NaN for a non-numeric price.  In each case the frame reaches
`handlePriceUpdate` and the cache instead of being dropped. -/
theorem decoders_forward_invalid_price :
    (parseBinanceMessage binanceMissingPriceFrame).map DecodedTick.price
        = some JsNumber.nan
    ∧ (parseBinanceMessage binanceNegativePriceFrame).map DecodedTick.price
        = some (JsNumber.val (-5))
    ∧ (parseKrakenMessage krakenMissingPriceFrame 0).map DecodedTick.price
        = some (JsNumber.val 0)
    ∧ (parseCoinbaseMessage coinbaseNonNumericPriceFrame).map DecodedTick.price
        = some JsNumber.nan := by
  decide

/-! Shutdown (C6). -/

/-- Counting close calls: the number of close invocations `disconnect`
issues for a given exchange equals the number of its table entries in the
OPEN ready state. -/
theorem count_close_calls (l : List (String × ℕ)) (ex : String) :
    ((l.filter (fun c => decide (c.2 = WebSocketOPEN))).map Prod.fst).count ex
      = (l.filter (fun c => decide (c.1 = ex) && decide (c.2 = WebSocketOPEN))).length := by
  induction l with
  | nil => rfl
  | cons hd tl ih =>
    by_cases h2 : hd.2 = WebSocketOPEN
    · by_cases h1 : hd.1 = ex
      · simp [List.filter_cons, h2, h1, List.count_cons, ih]
      · simp [List.filter_cons, h2, h1, List.count_cons, ih]
    · simp [List.filter_cons, h2, ih]

/-- A service state with one OPEN connection, one CONNECTING connection,
a registered price callback, a status callback and a pending timer. -/
def liveState : ServiceState :=
  { connections := [("binance", 1), ("coinbase", 0)],
    connectionStatus := [],
    priceCallbacks := [("BTC", [4])],
    statusCallbacks := [9],
    reconnectTimers := [("kraken", 12)],
    priceCache := [] }

/-- A service state whose only connection is still CONNECTING
(readyState 0). -/
def connectingOnlyState : ServiceState :=
  { connections := [("binance", 0)], connectionStatus := [],
    priceCallbacks := [], statusCallbacks := [],
    reconnectTimers := [], priceCache := [] }

/-- C6 counterexample: the service opened one connection, still in the
CONNECTING ready state when `disconnect()` runs, and `close` is invoked
on no connection at all — refuting "close is invoked exactly once on
every underlying connection the service opened". -/
theorem disconnect_skips_connecting_socket :
    connectingOnlyState.connections.length = 1
    ∧ (disconnect connectingOnlyState).2.1 = [] := by
  decide

/-- C6 amended: `disconnect` invokes close exactly once on every
connection in the OPEN ready state (and never on a CONNECTING, CLOSING or
CLOSED one), passes every pending reconnect timer to `clearTimeout`,
clears every internal table, is a safe no-op when invoked again, and
afterwards no price or status callback can fire: any later price event or
status transition invokes nobody. -/
theorem disconnect_cleanup (st : ServiceState) :
    (∀ ex : String, (disconnect st).2.1.count ex
        = (st.connections.filter
            (fun c => decide (c.1 = ex) && decide (c.2 = WebSocketOPEN))).length)
    ∧ (∀ t ∈ st.reconnectTimers, t.2 ∈ (disconnect st).2.2)
    ∧ (disconnect st).1 = ⟨[], [], [], [], [], []⟩
    ∧ disconnect (disconnect st).1 = (⟨[], [], [], [], [], []⟩, [], [])
    ∧ (∀ update now, (handlePriceUpdate (disconnect st).1 update now).2 = [])
    ∧ (∀ ex cs now lat err n,
        (updateConnectionStatusSvc (disconnect st).1 ex cs now lat err n).2 = []) := by
  refine ⟨fun ex => count_close_calls st.connections ex, ?_, rfl, rfl, ?_, ?_⟩
  · intro t ht
    exact List.mem_map.mpr ⟨t, ht, rfl⟩
  · intro update now
    simp [handlePriceUpdate, mapGet, disconnect]
  · intro ex cs now lat err n
    rfl

/-- Witness for the amended C6 on `liveState`: the OPEN binance socket is
closed exactly once, the CONNECTING coinbase socket is not closed, the
kraken timer is cleared, and a price event delivered after shutdown
invokes no callback. -/
theorem disconnect_cleanup_witness :
    (disconnect liveState).2.1.count "binance" = 1
    ∧ (disconnect liveState).2.1.count "coinbase" = 0
    ∧ (12 : ℕ) ∈ (disconnect liveState).2.2
    ∧ (handlePriceUpdate (disconnect liveState).1 tickA 0).2 = [] := by
  have h := disconnect_cleanup liveState
  refine ⟨?_, ?_, h.2.1 ("kraken", 12) (by decide), h.2.2.2.2.1 tickA 0⟩
  · rw [h.1 "binance"]; decide
  · rw [h.1 "coinbase"]; decide

/-! Unsubscription (C7). -/

/-- The unsubscribe closure is `List.erase`: it removes the first
occurrence of the callback, if any. -/
theorem unsubscribeOnce_eq_erase (cb : CallbackId) (l : List CallbackId) :
    unsubscribeOnce cb l = l.erase cb := by
  induction l with
  | nil => rfl
  | cons c cs ih =>
    rw [unsubscribeOnce, List.erase_cons]
    by_cases h : c = cb
    · rw [if_pos h, if_pos (beq_iff_eq.mpr h)]
    · rw [if_neg h, if_neg (by simpa using h), ih]

/-- Unsubscribing a callback that is not registered leaves the array
unchanged. -/
theorem unsubscribeOnce_of_not_mem (cb : CallbackId) (l : List CallbackId)
    (h : cb ∉ l) : unsubscribeOnce cb l = l := by
  rw [unsubscribeOnce_eq_erase]
  exact List.erase_of_not_mem h

/-- C7 counterexample: when the same callback is registered twice via
`onPriceUpdate`, calling its unsubscribe closure the second time is not a
no-op: it removes the remaining occurrence. -/
theorem unsubscribe_twice_not_noop :
    unsubscribeOnce 7 (registerCallback 7 (registerCallback 7 [])) = [7]
    ∧ unsubscribeOnce 7 (unsubscribeOnce 7 (registerCallback 7 (registerCallback 7 [])))
        ≠ unsubscribeOnce 7 (registerCallback 7 (registerCallback 7 [])) := by
  decide

/-- C7 amended: when the callback occurs exactly once in the symbol's
array, the first unsubscribe call removes exactly that occurrence
(leaving every other callback's multiplicity unchanged and shortening the
array by one), the callback is gone afterwards — so it can never be
invoked again — and every subsequent call is a no-op. -/
theorem unsubscribe_single_registration (l : List CallbackId) (cb : CallbackId)
    (h : l.count cb = 1) :
    (unsubscribeOnce cb l).count cb = 0
    ∧ (∀ d, d ≠ cb → (unsubscribeOnce cb l).count d = l.count d)
    ∧ (unsubscribeOnce cb l).length + 1 = l.length
    ∧ cb ∉ unsubscribeOnce cb l
    ∧ unsubscribeOnce cb (unsubscribeOnce cb l) = unsubscribeOnce cb l := by
  have hmem : cb ∈ l := List.count_pos_iff.mp (by omega)
  have h0 : (unsubscribeOnce cb l).count cb = 0 := by
    rw [unsubscribeOnce_eq_erase, List.count_erase_self, h]
  have hnm : cb ∉ unsubscribeOnce cb l := List.count_eq_zero.mp h0
  refine ⟨h0, ?_, ?_, hnm, unsubscribeOnce_of_not_mem cb _ hnm⟩
  · intro d hd
    rw [unsubscribeOnce_eq_erase, List.count_erase_of_ne hd]
  · rw [unsubscribeOnce_eq_erase]
    have := List.length_erase_of_mem hmem
    have : 0 < l.length := List.length_pos_of_mem hmem
    omega

/-- Witness for the amended C7 on a three-callback array. -/
theorem unsubscribe_single_registration_witness :
    (unsubscribeOnce 7 [3, 7, 5]).count 7 = 0
    ∧ unsubscribeOnce 7 (unsubscribeOnce 7 [3, 7, 5]) = unsubscribeOnce 7 [3, 7, 5] := by
  have h := unsubscribe_single_registration [3, 7, 5] 7 (by decide)
  exact ⟨h.1, h.2.2.2.2⟩

/-! Delivery during unsubscription (C8). -/

/-- Removing one entry never lengthens the array. -/
theorem removeFirstId_length_le (r : ℕ) (l : List DCb) :
    (removeFirstId r l).length ≤ l.length := by
  induction l with
  | nil => exact le_rfl
  | cons c cs ih =>
    rw [removeFirstId]
    by_cases h : c.id = r
    · rw [if_pos h]
      exact Nat.le_succ _
    · rw [if_neg h, List.length_cons, List.length_cons]
      omega

/-- A batch of removals never lengthens the array. -/
theorem applyRemoves_length_le (rs : List ℕ) (l : List DCb) :
    (applyRemoves rs l).length ≤ l.length := by
  induction rs generalizing l with
  | nil => exact le_rfl
  | cons r rs ih =>
    calc (applyRemoves (r :: rs) l).length
        = (applyRemoves rs (removeFirstId r l)).length := rfl
      _ ≤ (removeFirstId r l).length := ih (removeFirstId r l)
      _ ≤ l.length := removeFirstId_length_le r l

/-- When no invoked callback removes anything, the `forEach` loop visits
exactly the suffix from its current index, in order, given enough fuel. -/
theorem forEachDeliver_no_removes (fuel : ℕ) :
    ∀ (l : List DCb) (k : ℕ) (acc : List ℕ),
      (∀ c ∈ l, c.removes = []) → l.length - k ≤ fuel →
      forEachDeliver fuel l k acc = acc ++ (l.drop k).map DCb.id := by
  induction fuel with
  | zero =>
    intro l k acc hnone hfuel
    rw [forEachDeliver, List.drop_eq_nil_of_le (by omega), List.map_nil,
      List.append_nil]
  | succ fuel ih =>
    intro l k acc hnone hfuel
    rw [forEachDeliver]
    by_cases h : k < l.length
    · rw [dif_pos h, hnone _ (List.get_mem l k h)]
      rw [show applyRemoves [] l = l from rfl]
      rw [ih l (k + 1) _ hnone (by omega)]
      rw [List.append_assoc]
      congr 1
      rw [List.drop_eq_getElem_cons h, List.map_cons]
      rfl
    · rw [dif_neg h, List.drop_eq_nil_of_le (by omega), List.map_nil,
        List.append_nil]

/-- C8 counterexample: three subscribers where the first unsubscribes
itself during delivery.  Subscriber 1 is registered at the start of the
delivery, is removed by nobody, and is still skipped: only 0 and 2 are
invoked.  The live array shifts left under the advancing `forEach`
index, exactly the hazard the claim rules out. -/
theorem delivery_skips_after_self_unsubscribe :
    deliverAll [⟨0, [0]⟩, ⟨1, []⟩, ⟨2, []⟩] = [0, 2]
    ∧ (∀ c ∈ [(⟨0, [0]⟩ : DCb), ⟨1, []⟩, ⟨2, []⟩], (1 : ℕ) ∉ c.removes)
    ∧ (1 : ℕ) ∉ deliverAll [⟨0, [0]⟩, ⟨1, []⟩, ⟨2, []⟩] := by
  decide

/-- C8 amended: when no callback unsubscribes during the delivery, every
callback subscribed at the start of the delivery is invoked exactly once
and in registration order. -/
theorem delivery_without_mid_unsubscribe (l : List DCb)
    (h : ∀ c ∈ l, c.removes = []) :
    deliverAll l = l.map DCb.id := by
  unfold deliverAll
  rw [forEachDeliver_no_removes l.length l 0 [] h (by omega)]
  simp

/-- Witness for the amended C8 on a two-subscriber delivery. -/
theorem delivery_without_mid_unsubscribe_witness :
    deliverAll [⟨4, []⟩, ⟨5, []⟩] = [4, 5] := by
  rw [delivery_without_mid_unsubscribe [⟨4, []⟩, ⟨5, []⟩] (by decide)]
  rfl

end WebSocketPriceService
